import Mathlib

/-!
Shallow embedding of the FossFLOW authentication subsystem: the auth routes
(register, login, setup-2fa, verify-2fa), the user routes (disable-2fa,
API-key creation and listing) and the JWT middleware, modelled over explicit
state (the users and api_keys tables as lists of rows).  Library primitives
(bcrypt compare, speakeasy TOTP verification, jsonwebtoken verification,
sha256) are abstracted as function parameters where their internals are not
part of the repository.
-/

namespace FossFLOW

/-- A row of the `users` table (see the schema: username, email,
password_hash, totp_secret, totp_temp_secret, is_active, is_admin,
last_login).  Timestamps are modelled as natural numbers. -/
structure UserRow where
  id : Nat
  username : String
  email : String
  passwordHash : String
  totpSecret : Option String
  totpTempSecret : Option String
  isActive : Bool
  isAdmin : Bool
  lastLogin : Option Nat
deriving Repr, DecidableEq

/-- JavaScript falsiness of a string value (`!s` is true exactly for the
empty string). -/
def strFalsy (s : String) : Bool := s == ""

/-- JavaScript falsiness of an optional string request field (`!x` is true
when the field is absent or the empty string). -/
def optFalsy : Option String → Bool
  | none => true
  | some s => s == ""

/-- Bodies of the HTTP responses produced by the embedded handlers. -/
inductive RespBody where
  | err (msg : String)
  | message (msg : String)
  | require2FA
  | loginSuccess (tok : String) (userId : Nat) (username : String)
      (email : String) (has2FA : Bool)
  | registerSuccess (tok : String) (userId : Nat) (username : String)
      (email : String)
deriving Repr, DecidableEq

/-- An HTTP response: status code plus body. -/
structure HttpResp where
  status : Nat
  body : RespBody
deriving Repr, DecidableEq

/-- Models `jwt.sign(\x7b userId, username \x7d, JWT_SECRET, ...)`: an opaque
compact string determined by the signed claims. -/
def jwtSign (userId : Nat) (username : String) : String :=
  "jwt:" ++ toString userId ++ ":" ++ username

/-- Whether a response carries a freshly issued bearer token. -/
def issuesToken (resp : HttpResp) : Bool :=
  match resp.body with
  | .loginSuccess .. => true
  | .registerSuccess .. => true
  | _ => false

/-- The login request body: email, password and the optional totp field. -/
structure LoginReq where
  email : String
  password : String
  totp : Option String
deriving Repr, DecidableEq

/-- `SELECT * FROM users WHERE email = $1`, taking the first row. -/
def findByEmail (db : List UserRow) (e : String) : Option UserRow :=
  db.find? (fun u => u.email == e)

/-- `SELECT ... FROM users WHERE id = $1`, taking the first row. -/
def findById (db : List UserRow) (uid : Nat) : Option UserRow :=
  db.find? (fun u => u.id == uid)

/-- `UPDATE users SET last_login = NOW() WHERE id = $1`. -/
def updateLastLogin (db : List UserRow) (uid : Nat) (now : Nat) : List UserRow :=
  db.map (fun u => if u.id == uid then { u with lastLogin := some now } else u)

/-- The 200 success payload of the login endpoint: token plus the minimal
profile (id, username, email, `has2FA: !!user.totp_secret`). -/
def loginSuccessResp (u : UserRow) : HttpResp :=
  ⟨200, .loginSuccess (jwtSign u.id u.username) u.id u.username u.email
    u.totpSecret.isSome⟩

/-- The `POST /api/auth/login` handler.  `bc` abstracts
`bcrypt.compare(password, hash)` and `tv` abstracts
`speakeasy.totp.verify(\x7b secret, token, window: 1 \x7d)` at the current
time.  Returns the response together with the updated users table. -/
def login (bc : String → String → Bool) (tv : String → String → Bool)
    (db : List UserRow) (now : Nat) (r : LoginReq) : HttpResp × List UserRow :=
  if strFalsy r.email || strFalsy r.password then
    (⟨400, .err "Email and password are required"⟩, db)
  else
    match findByEmail db r.email with
    | none => (⟨401, .err "Invalid credentials"⟩, db)
    | some u =>
      if !(bc r.password u.passwordHash) then
        (⟨401, .err "Invalid credentials"⟩, db)
      else
        match u.totpSecret with
        | some secret =>
          if optFalsy r.totp then
            (⟨200, .require2FA⟩, db)
          else if !(tv secret (r.totp.getD "")) then
            (⟨401, .err "Invalid 2FA code"⟩, db)
          else
            (loginSuccessResp u, updateLastLogin db u.id now)
        | none =>
          (loginSuccessResp u, updateLastLogin db u.id now)

/-- A deactivated user row: `is_active = false`, no TOTP secret, and a
password hash against which "pw123456" verifies under an equality-test
stand-in for bcrypt. -/
def inactiveAlice : UserRow :=
  ⟨1, "alice", "a@x.io", "pw123456", none, none, false, false, none⟩

/-! JWT middleware.  The outcome of `jwt.verify` on a presented compact
token is abstracted as a `JwtVerdict`-valued parameter: the library call
either yields the signed claims, fails with `TokenExpiredError`, or fails
with any other verification error (bad signature, malformed structure,
unknown algorithm). -/

/-- Outcome of `jwt.verify(token, JWT_SECRET, cb)`. -/
inductive JwtVerdict where
  | ok (userId : Nat) (username : String)
  | expiredErr
  | otherErr
deriving Repr, DecidableEq

/-- Outcome of an Express middleware: pass control on with the attached
user, or answer with a status and error message. -/
inductive MwResult where
  | proceed (userId : Nat) (username : String)
  | reject (status : Nat) (msg : String)
deriving Repr, DecidableEq

/-- `const token = authHeader && authHeader.split(' ')[1]` — absent or empty
header yields a falsy token, as does a header without a second
space-separated part. -/
def extractBearer : Option String → Option String
  | none => none
  | some h =>
    if h == "" then none
    else ((h.data.splitOn ' ').map String.mk).get? 1

/-- The shared `authenticateToken` middleware (server/middleware/auth):
distinguishes `TokenExpiredError` (401 Token expired) from every other
verification failure (403 Invalid or expired token). -/
def authenticateToken (jv : String → JwtVerdict) (authHeader : Option String) :
    MwResult :=
  match extractBearer authHeader with
  | none => .reject 401 "Access token required"
  | some t =>
    if t == "" then .reject 401 "Access token required"
    else
      match jv t with
      | .ok uid un => .proceed uid un
      | .expiredErr => .reject 401 "Token expired"
      | .otherErr => .reject 403 "Invalid or expired token"

/-- The local `authenticateToken` copy at the bottom of the auth routes
file, used by `setup-2fa` and `verify-2fa`: any verification error, expired
included, is answered with 403 Invalid or expired token. -/
def authRouterAuthenticateToken (jv : String → JwtVerdict)
    (authHeader : Option String) : MwResult :=
  match extractBearer authHeader with
  | none => .reject 401 "Access token required"
  | some t =>
    if t == "" then .reject 401 "Access token required"
    else
      match jv t with
      | .ok uid un => .proceed uid un
      | .expiredErr => .reject 403 "Invalid or expired token"
      | .otherErr => .reject 403 "Invalid or expired token"

/-! Two-factor enrollment endpoints. -/

/-- The state change of `POST /api/auth/setup-2fa`:
`UPDATE users SET totp_temp_secret = $1 WHERE id = $2` with the freshly
generated base32 secret; the active secret is not touched. -/
def setup2fa (db : List UserRow) (uid : Nat) (secret : String) : List UserRow :=
  db.map (fun u => if u.id == uid then { u with totpTempSecret := some secret } else u)

/-- The `POST /api/auth/verify-2fa` handler.  `tv` abstracts
`speakeasy.totp.verify(\x7b secret, token, window: 1 \x7d)`.  Reading
`rows[0].totp_temp_secret` of an absent row throws, which the surrounding
try/catch answers with 500. -/
def verify2fa (tv : String → String → Bool) (db : List UserRow) (uid : Nat)
    (tok : Option String) : HttpResp × List UserRow :=
  if optFalsy tok then (⟨400, .err "2FA token is required"⟩, db)
  else
    match findById db uid with
    | none => (⟨500, .err "Internal server error"⟩, db)
    | some u =>
      match u.totpTempSecret with
      | none => (⟨400, .err "No 2FA setup in progress"⟩, db)
      | some temp =>
        if !(tv temp (tok.getD "")) then (⟨400, .err "Invalid 2FA token"⟩, db)
        else
          (⟨200, .message "2FA activated successfully"⟩,
            db.map (fun v =>
              if v.id == uid then
                { v with totpSecret := some temp, totpTempSecret := none }
              else v))

/-- Erase the pending TOTP secret of a row; two user tables equal after
`clearTemp` agree on everything the login handler may consult. -/
def clearTemp (u : UserRow) : UserRow := { u with totpTempSecret := none }

/-- The `POST /api/users/me/disable-2fa` handler.  `bc` abstracts
`bcrypt.compare`. -/
def disable2fa (bc : String → String → Bool) (db : List UserRow) (uid : Nat)
    (password : Option String) : HttpResp × List UserRow :=
  if optFalsy password then
    (⟨400, .err "Password is required to disable 2FA"⟩, db)
  else
    match findById db uid with
    | none => (⟨404, .err "User not found"⟩, db)
    | some u =>
      if !(bc (password.getD "") u.passwordHash) then
        (⟨401, .err "Incorrect password"⟩, db)
      else
        (⟨200, .message "2FA disabled successfully"⟩,
          db.map (fun v =>
            if v.id == uid then
              { v with totpSecret := none, totpTempSecret := none }
            else v))

/-! Registration. -/

/-- The registration request body. -/
structure RegisterReq where
  username : String
  email : String
  password : String
deriving Repr, DecidableEq

/-- Result of the register handler: the response, whether `bcrypt.hash` was
reached, and the resulting users table. -/
structure RegisterOut where
  resp : HttpResp
  hashAttempted : Bool
  users : List UserRow
deriving Repr, DecidableEq

/-- The `POST /api/auth/register` handler.  `hashF` abstracts
`bcrypt.hash(password, 12)`; the inserted row takes the schema defaults
`is_active = true`, `is_admin = false`. -/
def register (hashF : String → String) (db : List UserRow) (newId : Nat)
    (r : RegisterReq) : RegisterOut :=
  if strFalsy r.username || strFalsy r.email || strFalsy r.password then
    ⟨⟨400, .err "All fields are required"⟩, false, db⟩
  else if r.password.length < 8 then
    ⟨⟨400, .err "Password must be at least 8 characters long"⟩, false, db⟩
  else if db.any (fun u => u.email == r.email || u.username == r.username) then
    ⟨⟨400, .err "User already exists"⟩, false, db⟩
  else
    ⟨⟨201, .registerSuccess (jwtSign newId r.username) newId r.username r.email⟩,
      true,
      db ++ [⟨newId, r.username, r.email, hashF r.password, none, none, true, false, none⟩]⟩

/-! API keys. -/

/-- A row of the `api_keys` table. -/
structure ApiKeyRow where
  id : Nat
  userId : Nat
  name : String
  keyHash : String
  permissions : List String
  lastUsedAt : Option Nat
  expiresAt : Option Nat
  isActive : Bool
  createdAt : Nat
deriving Repr, DecidableEq

/-- The projection returned by `GET /me/api-keys`:
`SELECT id, name, permissions, last_used_at, expires_at, is_active,
created_at` — neither the key hash nor any raw key value. -/
structure ApiKeyItem where
  id : Nat
  name : String
  permissions : List String
  lastUsedAt : Option Nat
  expiresAt : Option Nat
  isActive : Bool
  createdAt : Nat
deriving Repr, DecidableEq

/-- Project a stored row onto the listing columns. -/
def toApiKeyItem (k : ApiKeyRow) : ApiKeyItem :=
  ⟨k.id, k.name, k.permissions, k.lastUsedAt, k.expiresAt, k.isActive, k.createdAt⟩

/-- `GET /me/api-keys`: the caller's rows, newest first, projected onto the
listing columns. -/
def listApiKeys (db : List ApiKeyRow) (uid : Nat) : List ApiKeyItem :=
  (((db.filter (fun k => k.userId == uid)).mergeSort
      (fun a b => decide (b.createdAt ≤ a.createdAt))).map toApiKeyItem)

/-- `expires_at` from the optional `expiresInDays` body field; JavaScript
`if (expiresInDays)` treats 0 like absence.  A day is 86400 seconds. -/
def mkExpiry (expiresInDays : Option Nat) (now : Nat) : Option Nat :=
  match expiresInDays with
  | some d => if d == 0 then none else some (now + d * 86400)
  | none => none

/-- The 201 body of `POST /me/api-keys`: the RETURNING columns of the insert
plus the raw key and the warning. -/
structure ApiKeyCreated where
  id : Nat
  name : String
  permissions : List String
  expiresAt : Option Nat
  isActive : Bool
  createdAt : Nat
  apiKey : String
  warning : String
deriving Repr, DecidableEq

/-- Response of `POST /me/api-keys`. -/
inductive CreateKeyResp where
  | failure (status : Nat) (msg : String)
  | created (status : Nat) (body : ApiKeyCreated)
deriving Repr, DecidableEq

/-- The `POST /me/api-keys` handler.  `digest` abstracts hex-encoded sha256;
`randHex` is the hex encoding of the 32 random bytes, so the raw key is
`"ffl_" ++ randHex`.  Only `digest` of the raw key is stored. -/
def createApiKey (digest : String → String) (db : List ApiKeyRow)
    (newId uid : Nat) (name : String) (permissions : List String)
    (expiresInDays : Option Nat) (now : Nat) (randHex : String) :
    CreateKeyResp × List ApiKeyRow :=
  if strFalsy name then (.failure 400 "API key name is required", db)
  else
    (.created 201
      ⟨newId, name, permissions, mkExpiry expiresInDays now, true, now,
        "ffl_" ++ randHex,
        "Save this API key securely. It will not be shown again."⟩,
      db ++ [⟨newId, uid, name, digest ("ffl_" ++ randHex), permissions, none,
        mkExpiry expiresInDays now, true, now⟩])

/-- Erase the stored digest of a row; listing output must not depend on it. -/
def eraseKeyHash (k : ApiKeyRow) : ApiKeyRow := { k with keyHash := "" }

/-- Result of authenticating a presented raw API key. -/
inductive ApiKeyAuth where
  | ok (userId : Nat)
  | notFound
  | expired
  | revoked
deriving Repr, DecidableEq

/-- Whether an optional expiry lies strictly in the past. -/
def isPastExpiry : Option Nat → Nat → Bool
  | none, _ => false
  | some e, now => decide (e < now)

/-- Modelled from the spec: `authenticate(rawKey)` of the API Key Manager is
described in the specification but has no implementation under the source
tree (the routes only create, list and delete keys).  Per the spec it
digests the presented value, looks the digest up among the stored key
digests, and fails with NotFound when nothing matches, Expired when the
match is past `expiresAt`, Revoked when the match has `isActive = false`;
otherwise it yields the owning user id. -/
def authenticateApiKey (digest : String → String) (db : List ApiKeyRow)
    (now : Nat) (raw : String) : ApiKeyAuth :=
  match db.find? (fun k => k.keyHash == digest raw) with
  | none => .notFound
  | some k =>
    if isPastExpiry k.expiresAt now then .expired
    else if !k.isActive then .revoked
    else .ok k.userId

/-! TOTP verification. -/

/-- The TOTP time-step counter: 30-second steps, `floor(T / 30)`. -/
def totpCounter (t : Nat) : Int := ((t / 30 : Nat) : Int)

/-- Modelled from the spec: `speakeasy.totp.verify(\x7b secret, token,
window \x7d)` from the speakeasy library (not part of the source tree)
accepts the submitted code iff it equals the HMAC-derived code `hotp secret
c` for some counter `c` within `window` steps of the current counter.  The
code derivation itself is abstracted as the parameter `hotp`. -/
def totpVerify (hotp : String → Int → Nat) (secret : String) (code : Nat)
    (t : Nat) (w : Nat) : Bool :=
  (List.range (2 * w + 1)).any
    (fun i => hotp secret (totpCounter t - (w : Int) + (i : Int)) == code)

end FossFLOW

namespace FossFLOW

/-- Searching by email commutes with erasing pending secrets, because
`clearTemp` preserves the email column. -/
lemma findByEmail_map_clearTemp (db : List UserRow) (e : String) :
    findByEmail (db.map clearTemp) e = (findByEmail db e).map clearTemp := by
  unfold findByEmail
  rw [List.find?_map]
  rfl

/-- The login response is unchanged when every pending TOTP secret is
erased from the users table: the handler consults the active secret only. -/
lemma login_resp_map_clearTemp (bc tv : String → String → Bool)
    (db : List UserRow) (now : Nat) (r : LoginReq) :
    (login bc tv (db.map clearTemp) now r).1 = (login bc tv db now r).1 := by
  unfold login
  cases hguard : (strFalsy r.email || strFalsy r.password) with
  | true => rfl
  | false =>
    simp only [Bool.false_eq_true, if_false]
    rw [findByEmail_map_clearTemp]
    cases hf : findByEmail db r.email with
    | none => rfl
    | some u =>
      simp only [Option.map_some']
      simp only [clearTemp]
      cases hbc : bc r.password u.passwordHash with
      | false => simp [hbc]
      | true =>
        simp only [hbc, Bool.not_true, Bool.false_eq_true, if_false]
        cases hts : u.totpSecret with
        | none => simp [loginSuccessResp, hts]
        | some s =>
          cases hot : optFalsy r.totp with
          | true => simp [hot]
          | false =>
            simp only [hot, Bool.false_eq_true, if_false]
            cases htv : tv s (r.totp.getD "") with
            | false => simp [htv]
            | true =>
              simp only [htv, Bool.not_true, Bool.false_eq_true, if_false]
              simp [loginSuccessResp, hts]

/-- Tables that agree after erasing pending secrets get the same login
response. -/
lemma login_resp_eq_of_clearTemp (bc tv : String → String → Bool)
    (db db₂ : List UserRow) (now : Nat) (r : LoginReq)
    (h : db.map clearTemp = db₂.map clearTemp) :
    (login bc tv db now r).1 = (login bc tv db₂ now r).1 := by
  rw [← login_resp_map_clearTemp bc tv db now r, h,
    login_resp_map_clearTemp bc tv db₂ now r]

/-- C1: for every well-formed login request, a bearer token is issued iff the
password verifies against the stored hash of the user found by email AND
(that user has no active TOTP secret OR a nonempty code was supplied that
verifies in the current window); moreover with a correct password, an active
secret and no code supplied, the response is 200 `require2FA` and no token. -/
theorem login_token_iff_password_and_totp
    (bc tv : String → String → Bool) (db : List UserRow) (now : Nat)
    (r : LoginReq) (he : r.email ≠ "") (hp : r.password ≠ "") :
    (issuesToken (login bc tv db now r).1 = true ↔
      ∃ u, findByEmail db r.email = some u ∧ bc r.password u.passwordHash = true ∧
        (u.totpSecret = none ∨
          ∃ s c, u.totpSecret = some s ∧ r.totp = some c ∧ c ≠ "" ∧ tv s c = true))
    ∧ (∀ u s, findByEmail db r.email = some u → bc r.password u.passwordHash = true →
        u.totpSecret = some s → optFalsy r.totp = true →
        (login bc tv db now r).1 = ⟨200, .require2FA⟩ ∧
        issuesToken (login bc tv db now r).1 = false) := by
  have hguard : (strFalsy r.email || strFalsy r.password) = false := by
    simp [strFalsy]
    exact ⟨he, hp⟩
  constructor
  · unfold login
    rw [hguard]
    simp only [Bool.false_eq_true, if_false]
    cases hf : findByEmail db r.email with
    | none => simp [issuesToken]
    | some u =>
      cases hbc : bc r.password u.passwordHash with
      | false => simp [issuesToken, hbc]
      | true =>
        simp only [hbc, Bool.not_true, Bool.false_eq_true, if_false]
        cases hts : u.totpSecret with
        | none =>
          exact iff_of_true rfl ⟨u, rfl, hbc, Or.inl hts⟩
        | some s =>
          cases ht : r.totp with
          | none =>
            simp [optFalsy, issuesToken, hbc, hts]
          | some c =>
            by_cases hc : c = ""
            · subst hc
              simp [optFalsy, issuesToken, hbc, hts]
            · have : optFalsy (some c) = false := by simp [optFalsy, hc]
              rw [this]
              simp only [Bool.false_eq_true, if_false]
              cases htv : tv s c with
              | false =>
                simp only [Option.getD, Bool.not_false, if_true]
                simp only [issuesToken]
                simp [hbc, hts, htv, hc]
              | true =>
                simp only [Option.getD, htv, Bool.not_true, Bool.false_eq_true, if_false]
                exact iff_of_true rfl ⟨u, rfl, hbc, Or.inr ⟨s, c, hts, rfl, hc, htv⟩⟩
  · intro u s hf hbc hts hot
    unfold login
    rw [hguard]
    simp only [Bool.false_eq_true, if_false, hf, hbc, Bool.not_true,
      hts, hot, if_true]
    refine ⟨?_, ?_⟩ <;> simp [issuesToken]

/-- Concrete instantiation of the C1 theorem: one user with an active TOTP
secret, correct password, no code supplied. -/
theorem login_token_iff_password_and_totp_witness :
    let bc : String → String → Bool := fun p h => p == h
    let tv : String → String → Bool := fun _ c => c == "123456"
    let u : UserRow := ⟨1, "alice", "a@x.io", "pw123456", some "SECRET", none, true, false, none⟩
    let r : LoginReq := ⟨"a@x.io", "pw123456", none⟩
    (issuesToken (login bc tv [u] 0 r).1 = true ↔
      ∃ v, findByEmail [u] r.email = some v ∧ bc r.password v.passwordHash = true ∧
        (v.totpSecret = none ∨
          ∃ s c, v.totpSecret = some s ∧ r.totp = some c ∧ c ≠ "" ∧ tv s c = true))
    ∧ (∀ v s, findByEmail [u] r.email = some v → bc r.password v.passwordHash = true →
        v.totpSecret = some s → optFalsy r.totp = true →
        (login bc tv [u] 0 r).1 = ⟨200, .require2FA⟩ ∧
        issuesToken (login bc tv [u] 0 r).1 = false) :=
  login_token_iff_password_and_totp _ _ _ _ _ (by decide) (by decide)

/-- C3: the login handler never reads `isActive`; a user row with
`isActive = false`, correct password and no active TOTP secret is issued a
bearer token and a 200 response, contradicting the stated login-eligibility
role of the flag. -/
theorem login_issues_token_to_inactive_user :
    inactiveAlice.isActive = false
    ∧ issuesToken (login (fun p h => p == h) (fun _ _ => false)
        [inactiveAlice] 0 ⟨"a@x.io", "pw123456", none⟩).1 = true
    ∧ (login (fun p h => p == h) (fun _ _ => false)
        [inactiveAlice] 0 ⟨"a@x.io", "pw123456", none⟩).1.status = 200 := by
  exact ⟨rfl, rfl, rfl⟩

/-- C4 counterexample: with an active TOTP secret, a wrong 2FA code is
answered 401 "Invalid 2FA code" while a wrong password is answered 401
"Invalid credentials" — the client-visible failure messages differ,
revealing which factor was wrong. -/
theorem login_failure_message_reveals_factor :
    let bc : String → String → Bool := fun p h => p == h
    let tv : String → String → Bool := fun _ c => c == "123456"
    let u : UserRow := ⟨2, "bob", "b@x.io", "pw123456", some "SECRET", none, true, false, none⟩
    (login bc tv [u] 0 ⟨"b@x.io", "pw123456", some "000000"⟩).1
        = ⟨401, .err "Invalid 2FA code"⟩
    ∧ (login bc tv [u] 0 ⟨"b@x.io", "wrongpass", none⟩).1
        = ⟨401, .err "Invalid credentials"⟩
    ∧ (⟨401, RespBody.err "Invalid 2FA code"⟩ : HttpResp)
        ≠ ⟨401, RespBody.err "Invalid credentials"⟩ := by
  refine ⟨rfl, rfl, by decide⟩

/-- C4 amended: every credential failure of login carries status 401, and
the unknown-email and wrong-password failures are the identical response
401 "Invalid credentials"; but a wrong 2FA code yields the distinct message
401 "Invalid 2FA code", so the message (not the status) reveals which
factor failed. -/
theorem login_failure_responses
    (bc tv : String → String → Bool) (db : List UserRow) (now : Nat)
    (r : LoginReq) (he : r.email ≠ "") (hp : r.password ≠ "") :
    (findByEmail db r.email = none →
      (login bc tv db now r).1 = ⟨401, .err "Invalid credentials"⟩)
    ∧ (∀ u, findByEmail db r.email = some u → bc r.password u.passwordHash = false →
      (login bc tv db now r).1 = ⟨401, .err "Invalid credentials"⟩)
    ∧ (∀ u s c, findByEmail db r.email = some u → bc r.password u.passwordHash = true →
      u.totpSecret = some s → r.totp = some c → c ≠ "" → tv s c = false →
      (login bc tv db now r).1 = ⟨401, .err "Invalid 2FA code"⟩) := by
  have hguard : (strFalsy r.email || strFalsy r.password) = false := by
    simp [strFalsy]
    exact ⟨he, hp⟩
  refine ⟨?_, ?_, ?_⟩
  · intro hf
    unfold login
    rw [hguard]
    simp [hf]
  · intro u hf hbc
    unfold login
    rw [hguard]
    simp [hf, hbc]
  · intro u s c hf hbc hts htc hc htv
    unfold login
    rw [hguard]
    simp [hf, hbc, hts, htc, optFalsy, hc, htv]

/-- Concrete instantiation of the amended C4 theorem. -/
theorem login_failure_responses_witness :
    let bc : String → String → Bool := fun p h => p == h
    let tv : String → String → Bool := fun _ c => c == "123456"
    let u : UserRow := ⟨2, "bob", "b@x.io", "pw123456", some "SECRET", none, true, false, none⟩
    let r : LoginReq := ⟨"b@x.io", "pw123456", some "000000"⟩
    (findByEmail [u] r.email = none →
      (login bc tv [u] 0 r).1 = ⟨401, .err "Invalid credentials"⟩)
    ∧ (∀ v, findByEmail [u] r.email = some v → bc r.password v.passwordHash = false →
      (login bc tv [u] 0 r).1 = ⟨401, .err "Invalid credentials"⟩)
    ∧ (∀ v s c, findByEmail [u] r.email = some v → bc r.password v.passwordHash = true →
      v.totpSecret = some s → r.totp = some c → c ≠ "" → tv s c = false →
      (login bc tv [u] 0 r).1 = ⟨401, .err "Invalid 2FA code"⟩) :=
  login_failure_responses _ _ _ _ _ (by decide) (by decide)

/-- C5 counterexample: on the endpoints guarded by the auth router's local
middleware copy (setup-2fa, verify-2fa), an expired token and an invalid
token produce the identical response 403 "Invalid or expired token" —
whereas the shared middleware does distinguish them.  So the
Expired/Invalid distinction does not hold on every authenticated
endpoint. -/
theorem authRouter_conflates_expired_and_invalid :
    authRouterAuthenticateToken (fun _ => .expiredErr) (some "Bearer abc")
      = authRouterAuthenticateToken (fun _ => .otherErr) (some "Bearer abc")
    ∧ authenticateToken (fun _ => .expiredErr) (some "Bearer abc")
      ≠ authenticateToken (fun _ => .otherErr) (some "Bearer abc") := by
  refine ⟨rfl, by decide⟩

/-- C5 amended: the shared middleware surfaces an expired token as 401
"Token expired" and any other verification failure as 403 "Invalid or
expired token"; but the local middleware copy in the auth routes answers
403 "Invalid or expired token" in both cases, so the distinction holds only
on endpoints using the shared middleware, not on setup-2fa/verify-2fa. -/
theorem token_failure_surfacing
    (jv : String → JwtVerdict) (h : Option String) (t : String)
    (hx : extractBearer h = some t) (ht : t ≠ "") :
    (jv t = .expiredErr → authenticateToken jv h = .reject 401 "Token expired")
    ∧ (jv t = .otherErr →
        authenticateToken jv h = .reject 403 "Invalid or expired token")
    ∧ ((jv t = .expiredErr ∨ jv t = .otherErr) →
        authRouterAuthenticateToken jv h = .reject 403 "Invalid or expired token") := by
  have htb : (t == "") = false := by simp [ht]
  refine ⟨?_, ?_, ?_⟩
  · intro hj
    unfold authenticateToken
    rw [hx]
    simp [htb, hj]
  · intro hj
    unfold authenticateToken
    rw [hx]
    simp [htb, hj]
  · intro hj
    unfold authRouterAuthenticateToken
    rw [hx]
    rcases hj with hj | hj <;> simp [htb, hj]

/-- C6: 2FA enrollment is two-phase.  First, `setup-2fa` changes nothing
but the pending secret column (so the active secret is untouched).  Second,
when `verify-2fa` is presented a nonempty code that verifies against the
pending secret of the addressed user, the pending secret is promoted to
active and cleared, with a 200 response.  Third, conversely, `verify-2fa`
changes the table at all only when a nonempty code was supplied that
verifies against the pending secret of the found user — a missing or empty
or failing code, a missing user, or an absent pending secret all leave
every row (active secret included) exactly unchanged, so the pending secret
becomes active only when verification succeeds.  Fourth, the login response
only depends on the table up to erasure of pending secrets, so a user with
a pending but no active secret logs in exactly as if 2FA were disabled. -/
theorem twofa_enrollment_two_phase
    (bc tv : String → String → Bool) (db db₂ : List UserRow) (uid : Nat)
    (secret : String) (now : Nat) (r : LoginReq)
    (hdb : db.map clearTemp = db₂.map clearTemp) :
    (setup2fa db uid secret).map clearTemp = db.map clearTemp
    ∧ (∀ u temp c, findById db uid = some u → u.totpTempSecret = some temp →
        c ≠ "" → tv temp c = true →
        (verify2fa tv db uid (some c)).1.status = 200 ∧
        (verify2fa tv db uid (some c)).2
          = db.map (fun v => if v.id == uid then
              { v with totpSecret := some temp, totpTempSecret := none } else v))
    ∧ (∀ tok, (verify2fa tv db uid tok).2 ≠ db →
        ∃ u temp c, tok = some c ∧ c ≠ "" ∧ findById db uid = some u ∧
          u.totpTempSecret = some temp ∧ tv temp c = true)
    ∧ (login bc tv db now r).1 = (login bc tv db₂ now r).1 := by
  refine ⟨?_, ?_, ?_, login_resp_eq_of_clearTemp bc tv db db₂ now r hdb⟩
  · simp only [setup2fa, List.map_map]
    apply List.map_congr_left
    intro u _
    by_cases h : (u.id == uid) = true <;> simp [h, clearTemp, Function.comp]
  · intro u temp c hf htemp hc htv
    unfold verify2fa
    have hfalsy : optFalsy (some c) = false := by simp [optFalsy, hc]
    rw [hfalsy]
    simp only [Bool.false_eq_true, if_false, hf, htemp, Option.getD_some, htv,
      Bool.not_true]
    exact ⟨trivial, trivial⟩
  · intro tok hne
    unfold verify2fa at hne
    cases tok with
    | none => simp [optFalsy] at hne
    | some c =>
      by_cases hc : c = ""
      · subst hc
        simp [optFalsy] at hne
      · have hfalsy : optFalsy (some c) = false := by simp [optFalsy, hc]
        rw [hfalsy] at hne
        simp only [Bool.false_eq_true, if_false] at hne
        cases hf : findById db uid with
        | none => simp [hf] at hne
        | some u =>
          simp only [hf] at hne
          cases htemp : u.totpTempSecret with
          | none => simp [htemp] at hne
          | some temp =>
            simp only [htemp] at hne
            cases htv : tv temp c with
            | false => simp [htv] at hne
            | true => exact ⟨u, temp, c, rfl, hc, rfl, htemp, htv⟩

/-- Concrete instantiation of the C6 theorem: the user has a pending secret
and no active secret, and logs in as if 2FA were off. -/
theorem twofa_enrollment_two_phase_witness :
    let bc : String → String → Bool := fun p h => p == h
    let tv : String → String → Bool := fun s c => s == "TMP" && c == "123456"
    let u : UserRow := ⟨3, "carol", "c@x.io", "pw123456", none, some "TMP", true, false, none⟩
    let u2 : UserRow := ⟨3, "carol", "c@x.io", "pw123456", none, none, true, false, none⟩
    let r : LoginReq := ⟨"c@x.io", "pw123456", none⟩
    (setup2fa [u] 3 "NEW").map clearTemp = [u].map clearTemp
    ∧ (∀ v temp c, findById [u] 3 = some v → v.totpTempSecret = some temp →
        c ≠ "" → tv temp c = true →
        (verify2fa tv [u] 3 (some c)).1.status = 200 ∧
        (verify2fa tv [u] 3 (some c)).2
          = [u].map (fun v => if v.id == 3 then
              { v with totpSecret := some temp, totpTempSecret := none } else v))
    ∧ (∀ tok, (verify2fa tv [u] 3 tok).2 ≠ [u] →
        ∃ v temp c, tok = some c ∧ c ≠ "" ∧ findById [u] 3 = some v ∧
          v.totpTempSecret = some temp ∧ tv temp c = true)
    ∧ (login bc tv [u] 0 r).1 = (login bc tv [u2] 0 r).1 :=
  twofa_enrollment_two_phase _ _ _ _ _ _ _ _ (by decide)

/-- Concrete instantiation of the amended C5 theorem. -/
theorem token_failure_surfacing_witness :
    let jv : String → JwtVerdict := fun _ => .expiredErr
    (jv "abc" = .expiredErr →
      authenticateToken jv (some "Bearer abc") = .reject 401 "Token expired")
    ∧ (jv "abc" = .otherErr →
        authenticateToken jv (some "Bearer abc")
          = .reject 403 "Invalid or expired token")
    ∧ ((jv "abc" = .expiredErr ∨ jv "abc" = .otherErr) →
        authRouterAuthenticateToken jv (some "Bearer abc")
          = .reject 403 "Invalid or expired token") :=
  token_failure_surfacing (fun _ => .expiredErr) (some "Bearer abc") "abc"
    (by decide) (by decide)

/-- C7: under window-1 verification (the window used at login and
verify-2fa), the code derived for the current 30-second step or for an
adjacent step (offset -1, 0 or +1) is accepted, and the code derived for a
step at distance two or more is rejected, provided that far code does not
collide with any of the three in-window codes. -/
theorem totp_window_pm_one (hotp : String → Int → Nat) (s : String) (t : Nat)
    (d e : Int) (hd : d = -1 ∨ d = 0 ∨ d = 1) (_he : 2 ≤ e.natAbs)
    (hc1 : hotp s (totpCounter t + e) ≠ hotp s (totpCounter t - 1))
    (hc2 : hotp s (totpCounter t + e) ≠ hotp s (totpCounter t))
    (hc3 : hotp s (totpCounter t + e) ≠ hotp s (totpCounter t + 1)) :
    totpVerify hotp s (hotp s (totpCounter t + d)) t 1 = true
    ∧ totpVerify hotp s (hotp s (totpCounter t + e)) t 1 = false := by
  have hr : List.range (2 * 1 + 1) = [0, 1, 2] := rfl
  constructor
  · unfold totpVerify
    rw [hr]
    simp only [List.any_cons, List.any_nil, Bool.or_false, Nat.cast_zero,
      Nat.cast_one, Nat.cast_ofNat, add_zero, Bool.or_eq_true, beq_iff_eq]
    rcases hd with rfl | rfl | rfl
    · have hx : totpCounter t + -1 = totpCounter t - 1 := by ring
      rw [hx]
      exact Or.inl rfl
    · have hx : totpCounter t - 1 + 1 = totpCounter t + 0 := by ring
      rw [hx]
      exact Or.inr (Or.inl rfl)
    · have hx : totpCounter t - 1 + 2 = totpCounter t + 1 := by ring
      rw [hx]
      exact Or.inr (Or.inr rfl)
  · unfold totpVerify
    rw [hr]
    simp only [List.any_cons, List.any_nil, Bool.or_false, Nat.cast_zero,
      Nat.cast_one, Nat.cast_ofNat, add_zero, Bool.or_eq_false_iff,
      beq_eq_false_iff_ne, ne_eq]
    have h1 : totpCounter t - 1 + 1 = totpCounter t := by ring
    have h2 : totpCounter t - 1 + 2 = totpCounter t + 1 := by ring
    rw [h1, h2]
    exact ⟨fun hx => hc1 hx.symm, fun hx => hc2 hx.symm, fun hx => hc3 hx.symm⟩

/-- Concrete instantiation of the C7 theorem at counter 10 (t = 300) with a
small explicit code-derivation function. -/
theorem totp_window_pm_one_witness :
    let hotp : String → Int → Nat := fun _ i => (i % 1000000).toNat
    (totpVerify hotp "S" (hotp "S" (totpCounter 300 + 1)) 300 1 = true
      ∧ totpVerify hotp "S" (hotp "S" (totpCounter 300 + 2)) 300 1 = false) :=
  totp_window_pm_one _ "S" 300 1 2 (by decide) (by decide) (by decide)
    (by decide) (by decide)

/-- C9: a registration request whose password has fewer than 8 characters
is rejected with status 400 before any hashing is attempted, and the users
table is unchanged (no record created). -/
theorem register_short_password_rejected (hashF : String → String)
    (db : List UserRow) (newId : Nat) (r : RegisterReq)
    (h : r.password.length < 8) :
    (register hashF db newId r).resp.status = 400
    ∧ (register hashF db newId r).hashAttempted = false
    ∧ (register hashF db newId r).users = db := by
  unfold register
  cases hg : (strFalsy r.username || strFalsy r.email || strFalsy r.password) with
  | true => exact ⟨rfl, rfl, rfl⟩
  | false =>
    simp only [Bool.false_eq_true, if_false]
    rw [if_pos h]
    exact ⟨rfl, rfl, rfl⟩

/-- Concrete instantiation of the C9 theorem with a 7-character password. -/
theorem register_short_password_rejected_witness :
    let r : RegisterReq := ⟨"dave", "d@x.io", "short12"⟩
    (register (fun p => "H" ++ p) [] 1 r).resp.status = 400
    ∧ (register (fun p => "H" ++ p) [] 1 r).hashAttempted = false
    ∧ (register (fun p => "H" ++ p) [] 1 r).users = [] :=
  register_short_password_rejected _ _ _ _ (by decide)

/-- C10: with a nonempty password that verifies, `disable-2fa` answers 200
and the new table differs from the old only in that the addressed rows lose
both TOTP columns (every other field of every row is untouched); with a
password that fails verification it answers 401 and the table is exactly
unchanged. -/
theorem disable2fa_clears_totp_only (bc : String → String → Bool)
    (db : List UserRow) (uid : Nat) (pw : String) (u : UserRow)
    (hf : findById db uid = some u) (hpw : pw ≠ "") :
    (bc pw u.passwordHash = true →
      (disable2fa bc db uid (some pw)).1
          = ⟨200, .message "2FA disabled successfully"⟩
      ∧ (disable2fa bc db uid (some pw)).2
          = db.map (fun v => if v.id == uid then
              { v with totpSecret := none, totpTempSecret := none } else v))
    ∧ (bc pw u.passwordHash = false →
      (disable2fa bc db uid (some pw)).1 = ⟨401, .err "Incorrect password"⟩
      ∧ (disable2fa bc db uid (some pw)).2 = db) := by
  have hfalsy : optFalsy (some pw) = false := by simp [optFalsy, hpw]
  constructor
  · intro hbc
    unfold disable2fa
    rw [hfalsy]
    simp [hf, hbc]
  · intro hbc
    unfold disable2fa
    rw [hfalsy]
    simp [hf, hbc]

/-- Concrete instantiation of the C10 theorem. -/
theorem disable2fa_clears_totp_only_witness :
    let bc : String → String → Bool := fun p h => p == h
    let u : UserRow := ⟨4, "erin", "e@x.io", "pw123456", some "S", some "T", true, false, none⟩
    (bc "pw123456" u.passwordHash = true →
      (disable2fa bc [u] 4 (some "pw123456")).1
          = ⟨200, .message "2FA disabled successfully"⟩
      ∧ (disable2fa bc [u] 4 (some "pw123456")).2
          = [u].map (fun v => if v.id == 4 then
              { v with totpSecret := none, totpTempSecret := none } else v))
    ∧ (bc "pw123456" u.passwordHash = false →
      (disable2fa bc [u] 4 (some "pw123456")).1 = ⟨401, .err "Incorrect password"⟩
      ∧ (disable2fa bc [u] 4 (some "pw123456")).2 = [u]) :=
  disable2fa_clears_totp_only _ _ _ _ _ (by decide) (by decide)

/-- C2: creating an API key answers 201 with the raw key in the response
body while the inserted row stores only the digest of that raw key; the
listing projection drops the digest column, and listing output is invariant
under erasing every stored digest, so no list operation can include the raw
value (or its digest). -/
theorem apiKey_raw_only_in_creation (digest : String → String)
    (db : List ApiKeyRow) (newId uid : Nat) (nm : String)
    (perms : List String) (expD : Option Nat) (now : Nat) (randHex : String)
    (hn : nm ≠ "") :
    (createApiKey digest db newId uid nm perms expD now randHex).1
      = .created 201 ⟨newId, nm, perms, mkExpiry expD now, true, now,
          "ffl_" ++ randHex,
          "Save this API key securely. It will not be shown again."⟩
    ∧ (createApiKey digest db newId uid nm perms expD now randHex).2
      = db ++ [⟨newId, uid, nm, digest ("ffl_" ++ randHex), perms, none,
          mkExpiry expD now, true, now⟩]
    ∧ (∀ k : ApiKeyRow, toApiKeyItem (eraseKeyHash k) = toApiKeyItem k)
    ∧ (∀ (db' : List ApiKeyRow) (u' : Nat),
        listApiKeys (db'.map eraseKeyHash) u' = listApiKeys db' u') := by
  have hfalsy : strFalsy nm = false := by simp [strFalsy, hn]
  refine ⟨?_, ?_, fun k => rfl, ?_⟩
  · unfold createApiKey
    rw [hfalsy]
    rfl
  · unfold createApiKey
    rw [hfalsy]
    rfl
  · intro db' u'
    unfold listApiKeys
    rw [List.filter_map]
    have hcomp : ((fun k : ApiKeyRow => k.userId == u') ∘ eraseKeyHash)
        = (fun k : ApiKeyRow => k.userId == u') := rfl
    rw [hcomp]
    rw [← @List.map_mergeSort ApiKeyRow ApiKeyRow
      (fun a b => decide (b.createdAt ≤ a.createdAt))
      (fun a b => decide (b.createdAt ≤ a.createdAt)) eraseKeyHash
      (db'.filter (fun k => k.userId == u')) (fun a _ b _ => rfl)]
    rw [List.map_map]
    rfl

/-- Concrete instantiation of the C2 theorem. -/
theorem apiKey_raw_only_in_creation_witness :
    let digest : String → String := fun s => "sha256:" ++ s
    (createApiKey digest [] 7 5 "ci" ["read"] none 1000 "deadbeef").1
      = .created 201 ⟨7, "ci", ["read"], mkExpiry none 1000, true, 1000,
          "ffl_" ++ "deadbeef",
          "Save this API key securely. It will not be shown again."⟩
    ∧ (createApiKey digest [] 7 5 "ci" ["read"] none 1000 "deadbeef").2
      = [] ++ [⟨7, 5, "ci", digest ("ffl_" ++ "deadbeef"), ["read"], none,
          mkExpiry none 1000, true, 1000⟩]
    ∧ (∀ k : ApiKeyRow, toApiKeyItem (eraseKeyHash k) = toApiKeyItem k)
    ∧ (∀ (db' : List ApiKeyRow) (u' : Nat),
        listApiKeys (db'.map eraseKeyHash) u' = listApiKeys db' u') :=
  apiKey_raw_only_in_creation _ _ _ _ _ _ _ _ _ (by decide)

/-- C8: the (spec-modelled) API-key authentication digests the presented
value and looks it up among the stored digests: NotFound exactly when no
row matches; on a match, Expired when past `expiresAt`, Revoked when not
expired but deactivated, and the owning user id otherwise.  Moreover a key
just created (no other row carrying the same digest) authenticates to its
owner until its expiry passes. -/
theorem authenticateApiKey_error_cases (digest : String → String)
    (db : List ApiKeyRow) (now : Nat) (raw : String) :
    (authenticateApiKey digest db now raw = .notFound ↔
      db.find? (fun k => k.keyHash == digest raw) = none)
    ∧ (∀ k, db.find? (fun k => k.keyHash == digest raw) = some k →
        ((isPastExpiry k.expiresAt now = true →
            authenticateApiKey digest db now raw = .expired)
          ∧ (isPastExpiry k.expiresAt now = false → k.isActive = false →
              authenticateApiKey digest db now raw = .revoked)
          ∧ (isPastExpiry k.expiresAt now = false → k.isActive = true →
              authenticateApiKey digest db now raw = .ok k.userId)))
    ∧ (∀ (db0 : List ApiKeyRow) (newId uid : Nat) (nm : String)
        (perms : List String) (expD : Option Nat) (cnow anow : Nat)
        (randHex : String), nm ≠ "" →
        (∀ k ∈ db0, (k.keyHash == digest ("ffl_" ++ randHex)) = false) →
        authenticateApiKey digest
            (createApiKey digest db0 newId uid nm perms expD cnow randHex).2
            anow ("ffl_" ++ randHex)
          = (if isPastExpiry (mkExpiry expD cnow) anow then .expired
             else .ok uid)) := by
  refine ⟨?_, ?_, ?_⟩
  · unfold authenticateApiKey
    cases hf : db.find? (fun k => k.keyHash == digest raw) with
    | none => simp
    | some k =>
      refine iff_of_false ?_ (by simp)
      cases hp : isPastExpiry k.expiresAt now with
      | true => simp [hp]
      | false => cases ha : k.isActive <;> simp [hp, ha]
  · intro k hf
    unfold authenticateApiKey
    rw [hf]
    refine ⟨fun hp => by simp [hp], fun hp ha => by simp [hp, ha],
      fun hp ha => by simp [hp, ha]⟩
  · intro db0 newId uid nm perms expD cnow anow randHex hn hmiss
    have hfalsy : strFalsy nm = false := by simp [strFalsy, hn]
    unfold createApiKey
    rw [hfalsy]
    simp only [Bool.false_eq_true, if_false]
    unfold authenticateApiKey
    rw [List.find?_append]
    have h0 : db0.find? (fun k => k.keyHash == digest ("ffl_" ++ randHex)) = none := by
      rw [List.find?_eq_none]
      intro k hk
      simp [hmiss k hk]
    rw [h0]
    simp only [Option.none_or, List.find?_cons, beq_self_eq_true, if_true]
    cases hp : isPastExpiry (mkExpiry expD cnow) anow <;> simp [hp]

/-- Concrete instantiation of the C8 theorem. -/
theorem authenticateApiKey_error_cases_witness :
    let digest : String → String := fun s => "sha256:" ++ s
    let row : ApiKeyRow := ⟨7, 5, "ci", digest "ffl_deadbeef", ["read"], none,
      some 2000, true, 1000⟩
    (authenticateApiKey digest [row] 1500 "ffl_deadbeef" = .notFound ↔
      [row].find? (fun k => k.keyHash == digest "ffl_deadbeef") = none)
    ∧ (∀ k, [row].find? (fun k => k.keyHash == digest "ffl_deadbeef") = some k →
        ((isPastExpiry k.expiresAt 1500 = true →
            authenticateApiKey digest [row] 1500 "ffl_deadbeef" = .expired)
          ∧ (isPastExpiry k.expiresAt 1500 = false → k.isActive = false →
              authenticateApiKey digest [row] 1500 "ffl_deadbeef" = .revoked)
          ∧ (isPastExpiry k.expiresAt 1500 = false → k.isActive = true →
              authenticateApiKey digest [row] 1500 "ffl_deadbeef" = .ok k.userId)))
    ∧ (∀ (db0 : List ApiKeyRow) (newId uid : Nat) (nm : String)
        (perms : List String) (expD : Option Nat) (cnow anow : Nat)
        (randHex : String), nm ≠ "" →
        (∀ k ∈ db0, (k.keyHash == digest ("ffl_" ++ randHex)) = false) →
        authenticateApiKey digest
            (createApiKey digest db0 newId uid nm perms expD cnow randHex).2
            anow ("ffl_" ++ randHex)
          = (if isPastExpiry (mkExpiry expD cnow) anow then .expired
             else .ok uid)) :=
  authenticateApiKey_error_cases _ _ _ _

end FossFLOW
